import Mathlib

/-!
Shallow embedding of the PlayRho / Box2D rigid-body dynamics sources
(`Body.cpp`, `RopeJoint.cpp`, `b2ChainShape.cpp`) and of the spec-described
parts whose implementations are not among the excerpted sources.

Real-valued quantities are modelled by the rational numbers so that all
definitions are executable; 2D vectors are pairs of rationals.  The `Cap`
free function, whose source uses a square root, is modelled over the reals.
-/

namespace PlayRho

/-- 2D vector of rationals, standing in for the code's `Vec2` / `Length2` /
`LinearVelocity2` etc. -/
abbrev Vec2 := ℚ × ℚ

/-- Dot product of two 2D vectors, as the code's `Dot`. -/
def Dot (a b : Vec2) : ℚ :=
  a.1 * b.1 + a.2 * b.2

/-- 2D cross product (z-component), as the code's `Cross`. -/
def Cross (a b : Vec2) : ℚ :=
  a.1 * b.2 - a.2 * b.1

/-- Counter-clockwise perpendicular, as the code's `GetRevPerpendicular`:
`(x, y) ↦ (-y, x)`. -/
def GetRevPerpendicular (a : Vec2) : Vec2 :=
  (-a.2, a.1)

/-- Scalar multiplication of a 2D vector. -/
def smul (s : ℚ) (a : Vec2) : Vec2 :=
  (s * a.1, s * a.2)

/-- Squared magnitude of a 2D vector, as the code's `GetMagnitudeSquared`. -/
def GetMagnitudeSquared (a : Vec2) : ℚ :=
  a.1 * a.1 + a.2 * a.2

/-- Squared distance between two points, as the code's `b2DistanceSquared`. -/
def DistanceSquared (a b : Vec2) : ℚ :=
  GetMagnitudeSquared (a.1 - b.1, a.2 - b.2)

/-- Body type, as the code's `BodyType` enumeration. -/
inductive BodyType where
  | Static
  | Kinematic
  | Dynamic
deriving DecidableEq, Repr

/-- The body's bit-flag set (`Body::FlagsType`), modelled as one boolean per
flag: `e_impenetrableFlag`, `e_fixedRotationFlag`, `e_autoSleepFlag`,
`e_awakeFlag`, `e_enabledFlag`, `e_velocityFlag`, `e_accelerationFlag`. -/
structure BodyFlags where
  impenetrable : Bool
  fixedRotation : Bool
  autoSleep : Bool
  awake : Bool
  enabled : Bool
  velocity : Bool
  acceleration : Bool
deriving DecidableEq, Repr

/-- Body configuration (`BodyConf`), restricted to the fields read by
`Body::GetFlags`. -/
structure BodyConf where
  type : BodyType
  bullet : Bool
  fixedRotation : Bool
  allowSleep : Bool
  awake : Bool
  enabled : Bool
deriving DecidableEq, Repr

/-- Modelled from the spec: `Body::GetFlags(BodyType)` (declared in
`Body.hpp`, not among the sources).  Per spec section 4.5: dynamic bodies are
velocity- and acceleration-capable; kinematic bodies are impenetrable and
velocity-capable; static bodies are impenetrable only.  (The legacy
`Box2D/Dynamics/Body.cpp` switch statement sets exactly these same bits.) -/
def GetFlagsForType : BodyType → BodyFlags
  | BodyType.Dynamic =>
    ⟨false, false, false, false, false, true, true⟩
  | BodyType.Kinematic =>
    ⟨true, false, false, false, false, true, false⟩
  | BodyType.Static =>
    ⟨true, false, false, false, false, false, false⟩

/-- `Body::GetFlags(const BodyConf&)` from `PlayRho/Dynamics/Body.cpp`:
derives the body's flag set from its configuration. -/
def GetFlags (bd : BodyConf) : BodyFlags :=
  let flags := GetFlagsForType bd.type
  let flags := if bd.bullet then { flags with impenetrable := true } else flags
  let flags := if bd.fixedRotation then { flags with fixedRotation := true } else flags
  let flags := if bd.allowSleep then { flags with autoSleep := true } else flags
  let flags :=
    if bd.awake then
      if flags.velocity then { flags with awake := true } else flags
    else
      if !bd.allowSleep && flags.velocity then { flags with awake := true } else flags
  let flags := if bd.enabled then { flags with enabled := true } else flags
  flags

/-- Position (linear location and angle), as the code's `Position`. -/
structure Position where
  linear : Vec2
  angular : ℚ
deriving DecidableEq, Repr

/-- Velocity (linear and angular components), as the code's `Velocity`. -/
structure Velocity where
  linear : Vec2
  angular : ℚ
deriving DecidableEq, Repr

/-- Sweep: two endpoint positions and a local center of mass. -/
structure Sweep where
  pos0 : Position
  pos1 : Position
  localCenter : Vec2
deriving DecidableEq, Repr

/-- `Sweep` constructed from a single position (the code's
`Sweep{Position{...}}`): both endpoints equal, zero local center. -/
def Sweep.ofPosition (p : Position) : Sweep :=
  ⟨p, p, (0, 0)⟩

/-- `Sweep` constructed from a position and a local center (the code's
`Sweep{Position{...}, localCenter}`). -/
def Sweep.ofPositionAndCenter (p : Position) (lc : Vec2) : Sweep :=
  ⟨p, p, lc⟩

/-- Rigid transformation: translation `p` plus orientation `q` given as the
(cos, sin) components of a direction. -/
structure Transformation where
  p : Vec2
  q : Vec2
deriving DecidableEq, Repr

/-- Application of a transformation to a point (rotate then translate), as
the code's `Transform(v, xf)`. -/
def Transform (v : Vec2) (xf : Transformation) : Vec2 :=
  (xf.q.1 * v.1 - xf.q.2 * v.2 + xf.p.1,
   xf.q.2 * v.1 + xf.q.1 * v.2 + xf.p.2)

/-- Mass data: accumulated mass, mass-weighted center, and rotational
inertia, as the code's `MassData`. -/
structure MassData where
  mass : ℚ
  center : Vec2
  I : ℚ
deriving DecidableEq, Repr

/-- The rigid body state (`Body`), restricted to the fields read or written
by the excerpted `Body.cpp` member and free functions. -/
structure Body where
  xf : Transformation
  sweep : Sweep
  velocity : Velocity
  linearAcceleration : Vec2
  angularAcceleration : ℚ
  invMass : ℚ
  invRotI : ℚ
  linearDamping : ℚ
  angularDamping : ℚ
  underActiveTime : ℚ
  flags : BodyFlags
  massDataDirty : Bool
deriving DecidableEq, Repr

/-- The code's `Body::GetLocation()`: the transformation's translation. -/
def Body.GetLocation (b : Body) : Vec2 :=
  b.xf.p

/-- The code's `Body::GetAngle()`: the angular part of the sweep's second
position. -/
def Body.GetAngle (b : Body) : ℚ :=
  b.sweep.pos1.angular

/-- The code's `Body::GetWorldCenter()`: the linear part of the sweep's
second position. -/
def Body.GetWorldCenter (b : Body) : Vec2 :=
  b.sweep.pos1.linear

/-- `Body::ResetMassData()` from `PlayRho/Dynamics/Body.cpp`.  The value of
`ComputeMassData(*this)` is passed in as the `massData` argument, since the
per-fixture `GetMassData` implementations are not among the sources; this
function is the exact translation of what `ResetMassData` does with that
value. -/
def Body.ResetMassData (b : Body) (massData : MassData) : Body :=
  if !b.flags.acceleration then
    { b with
      invMass := 0
      invRotI := 0
      sweep := Sweep.ofPosition ⟨b.GetLocation, b.GetAngle⟩
      massDataDirty := false }
  else
    let mass := if 0 < massData.mass then massData.mass else 1
    let invMass := 1 / mass
    let localCenter := smul invMass massData.center
    let invRotI :=
      if 0 < massData.I ∧ b.flags.fixedRotation = false then
        let lengthSquared := GetMagnitudeSquared localCenter
        let I := massData.I - mass * lengthSquared
        1 / I
      else
        0
    let oldCenter := b.GetWorldCenter
    let sweep := Sweep.ofPositionAndCenter ⟨Transform localCenter b.xf, b.GetAngle⟩ localCenter
    let newCenter := sweep.pos1.linear
    let deltaCenter := newCenter - oldCenter
    let vel : Velocity :=
      ⟨b.velocity.linear + smul b.velocity.angular (GetRevPerpendicular deltaCenter),
       b.velocity.angular⟩
    { b with
      invMass := invMass
      invRotI := invRotI
      sweep := sweep
      velocity := vel
      massDataDirty := false }

/-- `Body::SetVelocity(const Velocity&)` from `PlayRho/Dynamics/Body.cpp`. -/
def Body.SetVelocity (b : Body) (velocity : Velocity) : Body :=
  if velocity.linear ≠ ((0 : ℚ), (0 : ℚ)) ∨ velocity.angular ≠ 0 then
    if !b.flags.velocity then
      b
    else
      { b with
        flags := { b.flags with awake := true }
        underActiveTime := 0
        velocity := velocity }
  else
    { b with velocity := velocity }

/-- The free function `GetVelocity(const Body&, Time)` from
`PlayRho/Dynamics/Body.cpp`: integrates acceleration over the step and
applies the first-order damping division. -/
def GetVelocity (body : Body) (h : ℚ) : Velocity :=
  let velocity := body.velocity
  if body.flags.acceleration then
    let lin := velocity.linear + smul h body.linearAcceleration
    let ang := velocity.angular + h * body.angularAcceleration
    let lin : Vec2 := (lin.1 / (1 + h * body.linearDamping), lin.2 / (1 + h * body.linearDamping))
    let ang := ang / (1 + h * body.angularDamping)
    ⟨lin, ang⟩
  else
    velocity

/-- One entry of a body's joint list: the identity of the "other" body of
the joint (possibly absent, as for the code's null pointer) and the joint's
collide-connected flag. -/
structure KeyedJointEntry where
  other : Option Nat
  collideConnected : Bool
deriving DecidableEq, Repr

/-- The free function `ShouldCollide(const Body&, const Body&)` from
`PlayRho/Dynamics/Body.cpp`.  Bodies are identified by natural numbers;
`lhsAcc`/`rhsAcc` are the two bodies' accelerable flags and `joints` is the
left body's joint list. -/
def ShouldCollide (lhsAcc : Bool) (joints : List KeyedJointEntry)
    (rhsId : Nat) (rhsAcc : Bool) : Bool :=
  if !lhsAcc && !rhsAcc then
    false
  else
    !(joints.any fun ji => ji.other == some rhsId && !ji.collideConnected)

/-- Solver-side view of one body used by joint solving (the code's
`BodyConstraint`): inverse mass, inverse rotational inertia, and current
velocity. -/
structure BodyConstraint where
  invMass : ℚ
  invRotI : ℚ
  velocity : Velocity
deriving DecidableEq, Repr

/-- The rope joint's solver state (`RopeJoint`): current separation length
`length`, the maximum rope length, effective mass, unit direction `u`,
accumulated impulse, and the world anchor offsets `rA`, `rB`. -/
structure RopeJointState where
  length : ℚ
  maxLength : ℚ
  mass : ℚ
  u : Vec2
  impulse : ℚ
  rA : Vec2
  rB : Vec2
deriving DecidableEq, Repr

/-- Result of `RopeJoint::SolveVelocityConstraints`: the updated joint
state, the two updated body velocities, and the function's return value
(the applied incremental impulse normalized to a unit measure). -/
structure RopeSolveResult where
  joint : RopeJointState
  velA : Velocity
  velB : Velocity
  ret : ℚ
deriving DecidableEq, Repr

/-- `RopeJoint::SolveVelocityConstraints` from
`Box2D/Dynamics/Joints/RopeJoint.cpp`.  `invTime` is the step's
`GetInvTime()` value. -/
def SolveVelocityConstraints (j : RopeJointState) (bA bB : BodyConstraint)
    (invTime : ℚ) : RopeSolveResult :=
  let velA := bA.velocity
  let velB := bB.velocity
  let vpA := velA.linear + smul (velA.angular) (GetRevPerpendicular j.rA)
  let vpB := velB.linear + smul (velB.angular) (GetRevPerpendicular j.rB)
  let C := j.length - j.maxLength
  let vpDelta := vpB - vpA
  let Cdot := Dot j.u vpDelta + (if C < 0 then invTime * C else 0)
  let impulse := -(j.mass * Cdot)
  let oldImpulse := j.impulse
  let newAccumulated := min 0 (j.impulse + impulse)
  let impulse := newAccumulated - oldImpulse
  let P := smul impulse j.u
  let crossAP := Cross j.rA P
  let crossBP := Cross j.rB P
  let velA : Velocity := ⟨velA.linear - smul bA.invMass P, velA.angular - bA.invRotI * crossAP⟩
  let velB : Velocity := ⟨velB.linear + smul bB.invMass P, velB.angular + bB.invRotI * crossBP⟩
  { joint := { j with impulse := newAccumulated }
    velA := velA
    velB := velB
    ret := impulse }

/-- Chain shape state (`b2ChainShape`), restricted to the fields written by
`CreateLoop`: the vertex array and the neighbor-vertex data. -/
structure ChainShape where
  vertices : List Vec2
  prevVertex : Vec2
  nextVertex : Vec2
  hasPrevVertex : Bool
  hasNextVertex : Bool
deriving DecidableEq, Repr

/-- Modelled from the spec: the `b2_linearSlop` length constant from the
settings header (not among the sources); spec section 4.3 only requires a
positive minimum-separation length, and 0.005 is the conventional value. -/
def linearSlop : ℚ :=
  5 / 1000

/-- `b2ChainShape::CreateLoop` from the chain-shape source (called on an
empty chain): copies the `count` input vertices, appends a duplicate of the
first vertex, and wires the neighbor vertices to the ring's penultimate and
second vertices. -/
def CreateLoop (vertices : List Vec2) : ChainShape :=
  let count := vertices.length
  let vs := vertices ++ [vertices.getD 0 (0, 0)]
  { vertices := vs
    prevVertex := vs.getD (count + 1 - 2) (0, 0)
    nextVertex := vs.getD 1 (0, 0)
    hasPrevVertex := true
    hasNextVertex := true }

/-- Modelled from the spec: the minimal world state exercised by the
`WorldContact.SetAwake` scenario.  The world's per-body storage and the
contact-related free functions (`IsAwake`/`SetAwake`/`UnsetAwake` on bodies
and contacts, from `WorldBody.cpp`/`WorldContact.cpp`) are not among the
sources; bodies are reduced to their awake flags (indexed by `BodyID` as a
natural number) and contacts to the pair of body identifiers they connect. -/
structure MiniWorld where
  bodyAwake : List Bool
  contacts : List (Nat × Nat)
deriving DecidableEq, Repr

/-- Modelled from the spec: writing a body's awake flag
(`SetAwake`/`UnsetAwake` on a body identifier). -/
def setBodyAwake (w : MiniWorld) (i : Nat) (v : Bool) : MiniWorld :=
  { w with bodyAwake := w.bodyAwake.set i v }

/-- Modelled from the spec: `IsAwake(world, BodyID)`. -/
def bodyIsAwake (w : MiniWorld) (i : Nat) : Bool :=
  w.bodyAwake.getD i false

/-- Modelled from the spec: `SetAwake(world, ContactID)` "must transitively
wake both of its bodies" (spec sections 4.7 and 4.11). -/
def contactSetAwake (w : MiniWorld) (ci : Nat) : MiniWorld :=
  match w.contacts.get? ci with
  | some ab => setBodyAwake (setBodyAwake w ab.1 true) ab.2 true
  | none => w

/-- Modelled from the spec: `IsAwake(world, ContactID)`.  Per spec section
4.7 a contact's awake state mirrors its bodies': it reports awake exactly
when at least one of its two bodies is awake. -/
def contactIsAwake (w : MiniWorld) (ci : Nat) : Bool :=
  match w.contacts.get? ci with
  | some ab => bodyIsAwake w ab.1 || bodyIsAwake w ab.2
  | none => false

/-- Modelled from the spec: the world states reachable through the awake
related operations, starting from a world whose bodies are all awake (as
bodies created dynamic-and-awake are, in the excerpted test scenario). -/
inductive Reachable : MiniWorld → Prop where
  | init (n : Nat) (cs : List (Nat × Nat)) : Reachable ⟨List.replicate n true, cs⟩
  | unsetBody (w : MiniWorld) (i : Nat) : Reachable w → Reachable (setBodyAwake w i false)
  | setBody (w : MiniWorld) (i : Nat) : Reachable w → Reachable (setBodyAwake w i true)
  | wakeContact (w : MiniWorld) (ci : Nat) : Reachable w → Reachable (contactSetAwake w ci)

/-- Error kinds surfaced by the runtime-reportable failures of the engine
(spec section 7). -/
inductive ErrorKind where
  | InvalidArgument
  | NotFound
deriving DecidableEq, Repr

/-- Direction value stored by a successfully constructed `UnitVec`. -/
structure UnitVec where
  x : ℚ
  y : ℚ
deriving DecidableEq, Repr

/-- Modelled from the spec: the magnitude tolerance of the direct `UnitVec`
constructor.  The constructor's implementation is not among the sources;
the spec only says "within tolerance", so a small positive rational is
used. -/
def unitVecTolerance : ℚ :=
  1 / 1000

/-- Modelled from the spec: the direct `UnitVec(Vec2)` constructor
(spec sections 3 and 8, property 5): construction from an arbitrary
2-vector fails with an `InvalidArgument` error kind unless the vector
already has unit magnitude within tolerance, in which case the given
components are stored exactly. -/
def UnitVec.fromVec2 (v : Vec2) : Except ErrorKind UnitVec :=
  if |GetMagnitudeSquared v - 1| ≤ unitVecTolerance then
    Except.ok ⟨v.1, v.2⟩
  else
    Except.error ErrorKind.InvalidArgument

/-- Conversion of a `UnitVec` back to a plain 2-vector. -/
def UnitVec.toVec2 (u : UnitVec) : Vec2 :=
  (u.x, u.y)

/-- Real-valued 2D vector, for the one function (`Cap`) whose source takes a
square root. -/
abbrev Vec2R := ℝ × ℝ

/-- Real-valued velocity. -/
structure VelocityR where
  linear : Vec2R
  angular : ℝ

/-- Movement configuration (`MovementConf`): the per-step translation and
rotation limits. -/
structure MovementConf where
  maxTranslation : ℝ
  maxRotation : ℝ

/-- Squared magnitude of a real 2D vector. -/
def magnitudeSquaredR (a : Vec2R) : ℝ :=
  a.1 * a.1 + a.2 * a.2

/-- Magnitude of a real 2D vector. -/
noncomputable def magnitudeR (a : Vec2R) : ℝ :=
  Real.sqrt (magnitudeSquaredR a)

/-- The free function `Cap(Velocity, Time, MovementConf)` from
`PlayRho/Dynamics/Body.cpp`: scales the linear velocity back when the
step's translation would exceed `maxTranslation`, and the angular velocity
back when the step's rotation would exceed `maxRotation`. -/
noncomputable def Cap (velocity : VelocityR) (h : ℝ) (conf : MovementConf) : VelocityR :=
  let translation : Vec2R := (h * velocity.linear.1, h * velocity.linear.2)
  let lsquared := magnitudeSquaredR translation
  let velocity :=
    if lsquared > conf.maxTranslation * conf.maxTranslation then
      let r := conf.maxTranslation / Real.sqrt lsquared
      { velocity with linear := (velocity.linear.1 * r, velocity.linear.2 * r) }
    else
      velocity
  let absRotation := |h * velocity.angular|
  if absRotation > conf.maxRotation then
    let r := conf.maxRotation / absRotation
    { velocity with angular := velocity.angular * r }
  else
    velocity

/-- Concrete body used to evaluate `ResetMassData`: a dynamic-style body
(velocity- and acceleration-capable), not fixed-rotation, at the origin. -/
def bodyCE : Body :=
  { xf := ⟨(0, 0), (1, 0)⟩
    sweep := ⟨⟨(0, 0), 0⟩, ⟨(0, 0), 0⟩, (0, 0)⟩
    velocity := ⟨(0, 0), 0⟩
    linearAcceleration := (0, 0)
    angularAcceleration := 0
    invMass := 1
    invRotI := 0
    linearDamping := 0
    angularDamping := 0
    underActiveTime := 0
    flags := ⟨false, false, true, true, true, true, true⟩
    massDataDirty := true }

/-- Concrete computed mass data with positive accumulated inertia whose
parallel-axis-shifted inertia is negative: mass 1, mass-weighted center
(2, 0), accumulated I of 1, so the shifted inertia is 1 - 1·4 = -3. -/
def massDataCE : MassData :=
  ⟨1, (2, 0), 1⟩

/-- Concrete two-body world with one contact connecting bodies 0 and 1. -/
def worldCE : MiniWorld :=
  ⟨[true, true], [(0, 1)]⟩

/-- Concrete loop input: three vertices pairwise more than `linearSlop`
apart. -/
def loopCE : List Vec2 :=
  [(0, 0), (1, 0), (0, 1)]

/-! ## Theorems -/

/-- C4: the current engine's `Body::GetFlags(BodyConf)` sets the awake flag
at construction if and only if the configuration's type is velocity-capable
and either awake is requested, or awake is not requested while sleep is
disallowed; in particular a static body is never constructed awake even
when `awake = true` is requested. -/
theorem C4_getFlags_awake (bd : BodyConf) :
    ((GetFlags bd).awake = true ↔
      (GetFlagsForType bd.type).velocity = true ∧
        (bd.awake = true ∨ (bd.awake = false ∧ bd.allowSleep = false))) ∧
    (GetFlags { bd with type := BodyType.Static }).awake = false := by
  obtain ⟨t, bu, fr, sl, aw, en⟩ := bd
  cases t <;> cases bu <;> cases fr <;> cases sl <;> cases aw <;> cases en <;> decide

/-- C5: the free function `GetVelocity(body, h)` returns, for an accelerable
body, the velocity with `h` times the acceleration added and the result
divided by `1 + h ·` damping, independently for the linear components and
the angular component; for a non-accelerable body it returns the velocity
unchanged. -/
theorem C5_getVelocity (body : Body) (h : ℚ) :
    GetVelocity body h =
      if body.flags.acceleration = true then
        ⟨((body.velocity.linear.1 + h * body.linearAcceleration.1) / (1 + h * body.linearDamping),
          (body.velocity.linear.2 + h * body.linearAcceleration.2) / (1 + h * body.linearDamping)),
         (body.velocity.angular + h * body.angularAcceleration) / (1 + h * body.angularDamping)⟩
      else
        body.velocity := by
  cases hacc : body.flags.acceleration <;>
    simp [GetVelocity, hacc, smul, Prod.ext_iff]

/-- C9: `Body::SetVelocity` with the zero velocity stores the zero velocity
and leaves the awake flag and the under-active time unchanged, for every
body; only a non-zero velocity on a speedable body sets the awake flag and
resets the under-active time, and a non-zero velocity on a non-speedable
body leaves the body entirely unchanged. -/
theorem C9_setVelocity (b : Body) (v : Velocity) :
    b.SetVelocity v =
      if v.linear = ((0 : ℚ), (0 : ℚ)) ∧ v.angular = 0 then
        { b with velocity := v }
      else if b.flags.velocity = true then
        { b with
          flags := { b.flags with awake := true }
          underActiveTime := 0
          velocity := v }
      else
        b := by
  unfold Body.SetVelocity
  by_cases hz : v.linear = ((0 : ℚ), (0 : ℚ)) ∧ v.angular = 0
  · rw [if_neg (by tauto), if_pos hz]
  · rw [if_pos (by tauto), if_neg hz]
    cases hv : b.flags.velocity <;> simp [hv]

/-- C6: the free function `ShouldCollide` returns false exactly when either
neither body is accelerable or some joint in the left body's joint list
connects it to the right body with the collide-connected flag unset; it
returns true in every other case. -/
theorem C6_shouldCollide (lhsAcc : Bool) (joints : List KeyedJointEntry)
    (rhsId : Nat) (rhsAcc : Bool) :
    (ShouldCollide lhsAcc joints rhsId rhsAcc = false ↔
      (lhsAcc = false ∧ rhsAcc = false) ∨
        ∃ ji ∈ joints, ji.other = some rhsId ∧ ji.collideConnected = false) := by
  cases lhsAcc <;> cases rhsAcc <;>
    simp [ShouldCollide, List.any_eq_true, Bool.and_eq_true, beq_iff_eq,
      Bool.not_eq_true', and_assoc]

/-- C8: constructing the direction type directly from the non-unit 2-vector
(4, 2) fails with the InvalidArgument error kind; constructing it from the
unit vectors (0, 1) and (1, 0) succeeds and the resulting direction
converts back to exactly the original vector. -/
theorem C8_unitVec_construction :
    UnitVec.fromVec2 (4, 2) = Except.error ErrorKind.InvalidArgument ∧
    UnitVec.fromVec2 (0, 1) = Except.ok ⟨0, 1⟩ ∧
    (UnitVec.mk 0 1).toVec2 = ((0 : ℚ), (1 : ℚ)) ∧
    UnitVec.fromVec2 (1, 0) = Except.ok ⟨1, 0⟩ ∧
    (UnitVec.mk 1 0).toVec2 = ((1 : ℚ), (0 : ℚ)) := by
  refine ⟨?_, ?_, rfl, ?_, rfl⟩ <;>
    norm_num [UnitVec.fromVec2, GetMagnitudeSquared, unitVecTolerance]

/-- C2: after `RopeJoint::SolveVelocityConstraints`, the accumulated
impulse equals the minimum of zero and the sum of the previous accumulated
impulse and the raw impulse `-mass · Cdot` (hence is always at most zero),
and the impulse applied to the two bodies' velocities is the difference
between the new and the old accumulated impulse. -/
theorem C2_ropeSolveVelocityConstraints (j : RopeJointState) (bA bB : BodyConstraint)
    (invTime : ℚ) :
    let Cdot :=
      Dot j.u ((bB.velocity.linear + smul bB.velocity.angular (GetRevPerpendicular j.rB)) -
          (bA.velocity.linear + smul bA.velocity.angular (GetRevPerpendicular j.rA))) +
        (if j.length - j.maxLength < 0 then invTime * (j.length - j.maxLength) else 0)
    let newAccumulated := min 0 (j.impulse + -(j.mass * Cdot))
    let out := SolveVelocityConstraints j bA bB invTime
    out.joint.impulse = newAccumulated ∧
    out.joint.impulse ≤ 0 ∧
    out.velA = ⟨bA.velocity.linear - smul bA.invMass (smul (newAccumulated - j.impulse) j.u),
        bA.velocity.angular - bA.invRotI * Cross j.rA (smul (newAccumulated - j.impulse) j.u)⟩ ∧
    out.velB = ⟨bB.velocity.linear + smul bB.invMass (smul (newAccumulated - j.impulse) j.u),
        bB.velocity.angular + bB.invRotI * Cross j.rB (smul (newAccumulated - j.impulse) j.u)⟩ ∧
    out.ret = newAccumulated - j.impulse := by
  refine ⟨rfl, ?_, rfl, rfl, rfl⟩
  exact min_le_left 0 _

/-- C1 counterexample: on the accelerable, non-fixed-rotation body `bodyCE`
with computed mass data `massDataCE`, the parallel-axis-shifted inertia
`I - mass·|localCenter|²` equals `-3` and so is not positive, so the claim
requires the inverse rotational inertia to be set to 0; `ResetMassData`
instead sets it to `1 / (-3)`, because the code's guard tests the raw
accumulated `I > 0`, not the shifted inertia. -/
theorem C1_counterexample :
    bodyCE.flags.acceleration = true ∧
    bodyCE.flags.fixedRotation = false ∧
    massDataCE.I - massDataCE.mass *
        GetMagnitudeSquared (smul (1 / massDataCE.mass) massDataCE.center) = -3 ∧
    (bodyCE.ResetMassData massDataCE).invRotI = -(1 / 3) ∧
    (bodyCE.ResetMassData massDataCE).invRotI ≠ 0 := by
  refine ⟨rfl, rfl, by norm_num [massDataCE, GetMagnitudeSquared, smul], ?_, ?_⟩ <;>
    norm_num [Body.ResetMassData, bodyCE, massDataCE, GetMagnitudeSquared, smul]

/-- C1 (amended): for every accelerable body, `ResetMassData` sets the
inverse rotational inertia to the reciprocal of the parallel-axis-shifted
inertia (accumulated I minus the clamped mass times the squared magnitude
of the local center) only if the body's fixed-rotation flag is false and
the raw accumulated inertia I is positive; in every other case it sets the
inverse rotational inertia to 0. -/
theorem C1_resetMassData_invRotI (b : Body) (massData : MassData)
    (hacc : b.flags.acceleration = true) :
    (b.ResetMassData massData).invRotI =
      if 0 < massData.I ∧ b.flags.fixedRotation = false then
        1 / (massData.I -
          (if 0 < massData.mass then massData.mass else 1) *
            GetMagnitudeSquared
              (smul (1 / (if 0 < massData.mass then massData.mass else 1)) massData.center))
      else
        0 := by
  simp [Body.ResetMassData, hacc]

/-- C1 witness: the amended theorem evaluated at the concrete accelerable
body `bodyCE` and mass data `massDataCE`. -/
theorem C1_witness :
    bodyCE.flags.acceleration = true ∧
    (bodyCE.ResetMassData massDataCE).invRotI =
      if 0 < massDataCE.I ∧ bodyCE.flags.fixedRotation = false then
        1 / (massDataCE.I -
          (if 0 < massDataCE.mass then massDataCE.mass else 1) *
            GetMagnitudeSquared
              (smul (1 / (if 0 < massDataCE.mass then massDataCE.mass else 1)) massDataCE.center))
      else
        0 :=
  ⟨rfl, C1_resetMassData_invRotI bodyCE massDataCE rfl⟩

/-- C7: on an input array of at least 3 vertices with each consecutive pair
more than `linearSlop` apart, `CreateLoop` produces a vertex array of
length `count + 1` whose last element equals the first input vertex, wires
the previous neighbor vertex to the ring's penultimate vertex (the last
input vertex) and the next neighbor vertex to the ring's second vertex,
and marks both neighbor vertices as present. -/
theorem C7_createLoop (vertices : List Vec2)
    (hlen : 3 ≤ vertices.length)
    (_hsep : List.Chain' (fun a b => linearSlop * linearSlop < DistanceSquared a b) vertices) :
    (CreateLoop vertices).vertices.length = vertices.length + 1 ∧
    (CreateLoop vertices).vertices.getD vertices.length (0, 0) = vertices.getD 0 (0, 0) ∧
    (CreateLoop vertices).prevVertex = vertices.getD (vertices.length - 1) (0, 0) ∧
    (CreateLoop vertices).nextVertex = vertices.getD 1 (0, 0) ∧
    (CreateLoop vertices).hasPrevVertex = true ∧
    (CreateLoop vertices).hasNextVertex = true := by
  refine ⟨by simp [CreateLoop], ?_, ?_, ?_, rfl, rfl⟩
  · show (vertices ++ [vertices.getD 0 (0, 0)]).getD vertices.length (0, 0) = vertices.getD 0 (0, 0)
    rw [List.getD_append_right _ _ _ _ (le_refl _), Nat.sub_self]
    rfl
  · show (vertices ++ [vertices.getD 0 (0, 0)]).getD (vertices.length + 1 - 2) (0, 0) =
      vertices.getD (vertices.length - 1) (0, 0)
    have h2 : vertices.length + 1 - 2 = vertices.length - 1 := by omega
    rw [h2, List.getD_append _ _ _ _ (by omega)]
  · show (vertices ++ [vertices.getD 0 (0, 0)]).getD 1 (0, 0) = vertices.getD 1 (0, 0)
    rw [List.getD_append _ _ _ _ (by omega)]

/-- Helper: the concrete loop input satisfies the minimum-separation
hypothesis. -/
theorem chainSepLoopCE :
    List.Chain' (fun a b => linearSlop * linearSlop < DistanceSquared a b) loopCE := by
  norm_num [loopCE, List.chain'_cons, List.chain'_singleton, DistanceSquared,
    GetMagnitudeSquared, linearSlop]

/-- C7 witness: the theorem evaluated on the concrete three-vertex loop
input `loopCE`. -/
theorem C7_witness :
    3 ≤ loopCE.length ∧
    List.Chain' (fun a b => linearSlop * linearSlop < DistanceSquared a b) loopCE ∧
    ((CreateLoop loopCE).vertices.length = loopCE.length + 1 ∧
     (CreateLoop loopCE).vertices.getD loopCE.length (0, 0) = loopCE.getD 0 (0, 0) ∧
     (CreateLoop loopCE).prevVertex = loopCE.getD (loopCE.length - 1) (0, 0) ∧
     (CreateLoop loopCE).nextVertex = loopCE.getD 1 (0, 0) ∧
     (CreateLoop loopCE).hasPrevVertex = true ∧
     (CreateLoop loopCE).hasNextVertex = true) :=
  ⟨by decide, chainSepLoopCE, C7_createLoop loopCE (by decide) chainSepLoopCE⟩

/-- Helper: `getD` after `set` at the written index. -/
theorem list_getD_set_self (l : List Bool) (i : Nat) (v d : Bool) (h : i < l.length) :
    (l.set i v).getD i d = v := by
  rw [List.getD_eq_getElem?_getD, List.getElem?_set_eq_of_lt _ h]
  rfl

/-- Helper: `getD` after `set` at a different index. -/
theorem list_getD_set_of_ne (l : List Bool) (i j : Nat) (v d : Bool) (h : i ≠ j) :
    (l.set i v).getD j d = l.getD j d := by
  rw [List.getD_eq_getElem?_getD, List.getElem?_set_ne h, ← List.getD_eq_getElem?_getD]

/-- C3: for every world state containing a contact between two bodies in
which both bodies have been explicitly un-woken, `SetAwake` on that contact
leaves the contact and both of its connected bodies reporting awake; and in
every reachable world state a contact is never awake while both of its
bodies are asleep. -/
theorem C3_contactSetAwake_wakes :
    (∀ (w : MiniWorld) (ci a b : Nat),
        w.contacts.get? ci = some (a, b) →
        a < w.bodyAwake.length → b < w.bodyAwake.length →
        contactIsAwake (contactSetAwake (setBodyAwake (setBodyAwake w a false) b false) ci) ci
            = true ∧
        bodyIsAwake (contactSetAwake (setBodyAwake (setBodyAwake w a false) b false) ci) a
            = true ∧
        bodyIsAwake (contactSetAwake (setBodyAwake (setBodyAwake w a false) b false) ci) b
            = true) ∧
    (∀ (w : MiniWorld) (ci a b : Nat), Reachable w →
        w.contacts.get? ci = some (a, b) →
        bodyIsAwake w a = false → bodyIsAwake w b = false →
        contactIsAwake w ci = false) := by
  constructor
  · intro w ci a b hc ha hb
    have hc1 : (setBodyAwake (setBodyAwake w a false) b false).contacts.get? ci
        = some (a, b) := hc
    have hw2 : contactSetAwake (setBodyAwake (setBodyAwake w a false) b false) ci
        = setBodyAwake (setBodyAwake (setBodyAwake (setBodyAwake w a false) b false) a true)
            b true := by
      rw [contactSetAwake, hc1]
    rw [hw2]
    have hA : bodyIsAwake
        (setBodyAwake (setBodyAwake (setBodyAwake (setBodyAwake w a false) b false) a true)
          b true) a = true := by
      by_cases hab : a = b
      · subst hab
        simp only [bodyIsAwake, setBodyAwake]
        rw [list_getD_set_self]
        simpa using ha
      · simp only [bodyIsAwake, setBodyAwake]
        rw [list_getD_set_of_ne _ _ _ _ _ (fun hba => hab hba.symm), list_getD_set_self]
        simpa using ha
    have hB : bodyIsAwake
        (setBodyAwake (setBodyAwake (setBodyAwake (setBodyAwake w a false) b false) a true)
          b true) b = true := by
      simp only [bodyIsAwake, setBodyAwake]
      rw [list_getD_set_self]
      simpa using hb
    refine ⟨?_, hA, hB⟩
    have hc2 : (setBodyAwake (setBodyAwake (setBodyAwake (setBodyAwake w a false) b false)
        a true) b true).contacts.get? ci = some (a, b) := hc
    rw [contactIsAwake, hc2]
    simp [hA, hB]
  · intro w ci a b _hr hc hba hbb
    rw [contactIsAwake, hc]
    simp [hba, hbb]

/-- C3 witness: the theorem evaluated on the concrete two-body world
`worldCE` with both bodies explicitly un-woken, and the awake invariant at
the reachable state in which both bodies were un-woken. -/
theorem C3_witness :
    (contactIsAwake (contactSetAwake (setBodyAwake (setBodyAwake worldCE 0 false) 1 false) 0) 0
        = true ∧
     bodyIsAwake (contactSetAwake (setBodyAwake (setBodyAwake worldCE 0 false) 1 false) 0) 0
        = true ∧
     bodyIsAwake (contactSetAwake (setBodyAwake (setBodyAwake worldCE 0 false) 1 false) 0) 1
        = true) ∧
    contactIsAwake (setBodyAwake (setBodyAwake worldCE 0 false) 1 false) 0 = false :=
  ⟨C3_contactSetAwake_wakes.1 worldCE 0 0 1 rfl (by decide) (by decide),
   C3_contactSetAwake_wakes.2 (setBodyAwake (setBodyAwake worldCE 0 false) 1 false) 0 0 1
     (Reachable.unsetBody (setBodyAwake worldCE 0 false) 1
       (Reachable.unsetBody worldCE 0 (Reachable.init 2 [(0, 1)])))
     rfl (by decide) (by decide)⟩

/-- Helper: the linear component of `Cap`'s result, by cases on the two
conditions. -/
theorem Cap_linear (v : VelocityR) (h : ℝ) (conf : MovementConf) :
    (Cap v h conf).linear =
      if magnitudeSquaredR (h * v.linear.1, h * v.linear.2) >
          conf.maxTranslation * conf.maxTranslation then
        (v.linear.1 * (conf.maxTranslation /
            Real.sqrt (magnitudeSquaredR (h * v.linear.1, h * v.linear.2))),
         v.linear.2 * (conf.maxTranslation /
            Real.sqrt (magnitudeSquaredR (h * v.linear.1, h * v.linear.2))))
      else
        v.linear := by
  by_cases h1 : magnitudeSquaredR (h * v.linear.1, h * v.linear.2) >
      conf.maxTranslation * conf.maxTranslation <;>
    by_cases h2 : |h * v.angular| > conf.maxRotation <;>
      simp [Cap, h1, h2]

/-- Helper: the angular component of `Cap`'s result, by cases on the two
conditions. -/
theorem Cap_angular (v : VelocityR) (h : ℝ) (conf : MovementConf) :
    (Cap v h conf).angular =
      if |h * v.angular| > conf.maxRotation then
        v.angular * (conf.maxRotation / |h * v.angular|)
      else
        v.angular := by
  by_cases h1 : magnitudeSquaredR (h * v.linear.1, h * v.linear.2) >
      conf.maxTranslation * conf.maxTranslation <;>
    by_cases h2 : |h * v.angular| > conf.maxRotation <;>
      simp [Cap, h1, h2]

/-- Helper: scaling a real 2D vector by a factor of absolute value at most
one does not increase its magnitude. -/
theorem magnitudeR_scale_le (x y c : ℝ) (hc : |c| ≤ 1) :
    magnitudeR (x * c, y * c) ≤ magnitudeR (x, y) := by
  unfold magnitudeR magnitudeSquaredR
  apply Real.sqrt_le_sqrt
  show x * c * (x * c) + y * c * (y * c) ≤ x * x + y * y
  have h2 : c * c ≤ 1 := by
    have habs := abs_mul_abs_self c
    nlinarith [abs_nonneg c]
  nlinarith [mul_self_nonneg x, mul_self_nonneg y]

/-- C10: for every velocity, nonnegative time step, and movement
configuration with positive `maxTranslation` and `maxRotation`, the
velocity returned by `Cap` has linear magnitude no greater than the
input's linear magnitude and angular magnitude no greater than the input's
angular magnitude. -/
theorem C10_cap_never_speeds_up (v : VelocityR) (h : ℝ) (conf : MovementConf)
    (_hh : 0 ≤ h) (hmt : 0 < conf.maxTranslation) (hmr : 0 < conf.maxRotation) :
    magnitudeR (Cap v h conf).linear ≤ magnitudeR v.linear ∧
    |(Cap v h conf).angular| ≤ |v.angular| := by
  constructor
  · rw [Cap_linear]
    by_cases h1 : magnitudeSquaredR (h * v.linear.1, h * v.linear.2) >
        conf.maxTranslation * conf.maxTranslation
    · rw [if_pos h1]
      have hsq : conf.maxTranslation <
          Real.sqrt (magnitudeSquaredR (h * v.linear.1, h * v.linear.2)) := by
        have hrw : conf.maxTranslation
            = Real.sqrt (conf.maxTranslation * conf.maxTranslation) := by
          rw [Real.sqrt_mul_self hmt.le]
        rw [hrw]
        exact Real.sqrt_lt_sqrt (by positivity) h1
      have hsqrtpos : 0 < Real.sqrt (magnitudeSquaredR (h * v.linear.1, h * v.linear.2)) :=
        lt_trans hmt hsq
      have hc : |conf.maxTranslation /
          Real.sqrt (magnitudeSquaredR (h * v.linear.1, h * v.linear.2))| ≤ 1 := by
        rw [abs_of_nonneg (by positivity), div_le_one hsqrtpos]
        exact hsq.le
      have hfin := magnitudeR_scale_le v.linear.1 v.linear.2 _ hc
      simpa using hfin
    · rw [if_neg h1]
  · rw [Cap_angular]
    by_cases h2 : |h * v.angular| > conf.maxRotation
    · rw [if_pos h2]
      have habs : 0 < |h * v.angular| := lt_trans hmr h2
      have hr1 : conf.maxRotation / |h * v.angular| ≤ 1 := by
        rw [div_le_one habs]
        exact h2.le
      have hrpos : 0 ≤ conf.maxRotation / |h * v.angular| := by positivity
      calc |v.angular * (conf.maxRotation / |h * v.angular|)|
          = |v.angular| * (conf.maxRotation / |h * v.angular|) := by
            rw [abs_mul, abs_of_nonneg hrpos]
        _ ≤ |v.angular| * 1 := mul_le_mul_of_nonneg_left hr1 (abs_nonneg _)
        _ = |v.angular| := mul_one _
    · rw [if_neg h2]

/-- C10 witness: the theorem evaluated at the concrete velocity
((3, 4), 2), step 1, and limits maxTranslation = maxRotation = 1. -/
theorem C10_witness :
    (0 : ℝ) ≤ 1 ∧ (0 : ℝ) < 1 ∧
    (magnitudeR (Cap ⟨(3, 4), 2⟩ 1 ⟨1, 1⟩).linear ≤ magnitudeR ((3 : ℝ), (4 : ℝ)) ∧
     |(Cap ⟨(3, 4), 2⟩ 1 ⟨1, 1⟩).angular| ≤ |(2 : ℝ)|) :=
  ⟨by norm_num, by norm_num,
   C10_cap_never_speeds_up ⟨(3, 4), 2⟩ 1 ⟨1, 1⟩ (by norm_num) (by norm_num) (by norm_num)⟩

end PlayRho
